import Mathlib

/-!
Verification of the mekon-cli interactive dashboard core
(`src/commands/dashboard.py` and `src/core/collectors.py`).

The Python code is shallowly embedded: every fallible external interaction
(subprocess calls, file reads, terminal ioctls, config loading) is an input
supplied through an environment record, and Python exceptions are modelled
with an explicit exception type threaded through `Except`.  Machine-level
details that the dashboard core never observes (actual process spawning,
actual file contents on disk) stay outside the model; the collectors and the
layout builder are translated branch by branch from the source.
-/

namespace Mekon

/-- Model of a Python exception value, tagged by the classes the dashboard
code discriminates on.  `termiosError` models `termios.error`, which in
CPython derives directly from `Exception` and is NOT a subclass of
`OSError`. -/
inductive PyExc where
  | importError
  | osError (msg : String)
  | termiosError
  | jsonError
  | typeError
  | excOther (msg : String)
deriving DecidableEq, Repr

/-- Outcome of one `subprocess.run([...], capture_output=True, text=True,
timeout=3)` call: a completed process with return code and stdout, a
`FileNotFoundError` (missing binary), a `subprocess.TimeoutExpired`, or any
other exception escaping the call. -/
inductive ProcResult where
  | ok (returncode : Int) (stdout : String)
  | notFound
  | timeout
  | exn (e : PyExc)
deriving DecidableEq, Repr

/-- Body of a Rich renderable as the collectors build it: either a plain
(markup) string or a three-column table given by its rows. -/
inductive PBody where
  | text (s : String)
  | table (rows : List (String × String × String))
deriving DecidableEq, Repr

/-- Model of a `rich.panel.Panel` as constructed by this code base: a body
plus the keyword arguments actually used (`title=`, `border_style=`,
`style=`). -/
structure PPanel where
  body : PBody
  title : Option String := none
  border_style : Option String := none
  style : Option String := none
deriving DecidableEq, Repr

/-- The slice of `MekonConfig` read by the collectors: `mekong_path.exists()`,
`bool(llm_api_key)` inputs, `llm_model`, `data_path.exists()`. -/
structure ConfigView where
  mekongExists : Bool
  llmApiKey : String
  llmModel : String
  dataExists : Bool
deriving DecidableEq, Repr

/-- One well-typed entry of the revenue ledger after `json.loads`: the fields
the code extracts via `e.get("amount", 0)`, `e.get("date", "")`,
`e.get("source", "?")` (defaults already applied).  A ledger whose entries
are not of this shape makes the surrounding code raise, which the
environment models by an error in `ledgerRead`. -/
structure LedgerEntry where
  amount : Int
  date : String
  source : String
deriving DecidableEq, Repr

/-- Environment of one collector invocation: the outcome of every external
interaction the four collectors perform. -/
structure Env where
  gitBranch : ProcResult
  gitStatus : ProcResult
  vercelVersion : ProcResult
  dockerInfo : ProcResult
  config : Except PyExc ConfigView
  ledgerExists : Bool
  ledgerRead : Except PyExc (List LedgerEntry)
  nowMonth : String
  pythonVer : ProcResult
  gitVer : ProcResult
  nodeVer : ProcResult
deriving Repr

/-- Insert thousands separators into a reversed digit string
(helper for Python's `,` format grouping). -/
def commaRev : List Char → List Char
  | a :: b :: c :: d :: rest => a :: b :: c :: ',' :: commaRev (d :: rest)
  | l => l

/-- Python `f"{n:,}"` digit grouping for a natural number. -/
def fmtGrouped (n : Nat) : String :=
  String.mk (commaRev (toString n).data.reverse).reverse

/-- Python `f"{a:,.0f}"` for an integral amount. -/
def fmtMoney0 (a : Int) : String :=
  (if a < 0 then "-" else "") ++ fmtGrouped a.natAbs

/-- Python `f"{a:,.2f}"` for an integral amount. -/
def fmtMoney2 (a : Int) : String :=
  fmtMoney0 a ++ ".00"

/-- Body of `collect_devops` inside its outer `try`: the three platform rows.
Each row's own `try/except (FileNotFoundError, subprocess.TimeoutExpired)`
degrades that row; any other exception escapes to the outer handler. -/
def collect_devops_inner (env : Env) : Except PyExc PPanel := do
  let gitRow ←
    match env.gitBranch with
    | .exn e => Except.error e
    | .notFound => Except.ok ("Git", "[dim]n/a[/dim]", "")
    | .timeout => Except.ok ("Git", "[dim]n/a[/dim]", "")
    | .ok _ bout =>
      match env.gitStatus with
      | .exn e => Except.error e
      | .notFound => Except.ok ("Git", "[dim]n/a[/dim]", "")
      | .timeout => Except.ok ("Git", "[dim]n/a[/dim]", "")
      | .ok _ sout =>
        Except.ok ("Git",
          if sout.trim = "" then "[green]clean[/green]" else "[yellow]dirty[/yellow]",
          bout.trim)
  let vercelRow ←
    match env.vercelVersion with
    | .exn e => Except.error e
    | .notFound => Except.ok ("Vercel", "[dim]not found[/dim]", "")
    | .timeout => Except.ok ("Vercel", "[dim]not found[/dim]", "")
    | .ok _ out => Except.ok ("Vercel", "[green]installed[/green]", (out.trim).take 20)
  let dockerRow ←
    match env.dockerInfo with
    | .exn e => Except.error e
    | .notFound => Except.ok ("Docker", "[dim]not found[/dim]", "")
    | .timeout => Except.ok ("Docker", "[dim]not found[/dim]", "")
    | .ok rc out =>
      Except.ok ("Docker", "[green]running[/green]",
        (if rc = 0 then out.trim else "?") ++ " containers")
  Except.ok { body := PBody.table [gitRow, vercelRow, dockerRow],
              title := some "[1] DevOps", border_style := some "blue" }

/-- `collect_devops`: the outer `except Exception` converts any escaping
failure into the degraded panel. -/
def collect_devops (env : Env) : PPanel :=
  match collect_devops_inner env with
  | .ok p => p
  | .error _ =>
    { body := PBody.text "[dim]Unable to collect DevOps data[/dim]",
      title := some "[1] DevOps", border_style := some "red" }

/-- Python `entries[-3:]`. -/
def lastThree (l : List LedgerEntry) : List LedgerEntry :=
  l.drop (l.length - 3)

/-- `sum(e.get("amount", 0) for e in entries)`. -/
def sumAmounts (l : List LedgerEntry) : Int :=
  (l.map (fun e => e.amount)).sum

/-- Body of `collect_revenue` inside its outer `try`. -/
def collect_revenue_inner (env : Env) : Except PyExc PPanel := do
  let _cfg ← env.config
  if env.ledgerExists = false then
    return { body := PBody.text
               ("[dim]No transactions yet[/dim]\n" ++
                "[dim]Use: mekon revenue add 100 --source client[/dim]"),
             title := some "[2] Revenue", border_style := some "green" }
  let entries ← env.ledgerRead
  let total := sumAmounts entries
  let monthEntries := entries.filter (fun e => e.date.startsWith env.nowMonth)
  let monthTotal := sumAmounts monthEntries
  let recentLines := (lastThree entries).map
    (fun e => "  $" ++ fmtMoney0 e.amount ++ " from " ++ e.source)
  let content :=
    "[bold]Total:[/bold]  $" ++ fmtMoney2 total ++ "\n" ++
    "[bold]Month:[/bold]  $" ++ fmtMoney2 monthTotal ++ "\n" ++
    "[bold]Txns:[/bold]   " ++ toString entries.length ++ "\n"
  let content :=
    if recentLines.length > 0 then
      content ++ "\n[dim]Recent:[/dim]\n" ++ String.intercalate "\n" recentLines
    else content
  return { body := PBody.text content,
           title := some "[2] Revenue", border_style := some "green" }

/-- `collect_revenue` with its outer `except Exception` handler. -/
def collect_revenue (env : Env) : PPanel :=
  match collect_revenue_inner env with
  | .ok p => p
  | .error _ =>
    { body := PBody.text "[dim]Unable to load revenue data[/dim]",
      title := some "[2] Revenue", border_style := some "red" }

/-- Body of `collect_agents` inside its outer `try`. -/
def collect_agents_inner (env : Env) : Except PyExc PPanel := do
  let cfg ← env.config
  let engineStatus :=
    if cfg.mekongExists then "[green]available[/green]" else "[red]missing[/red]"
  let apiStatus :=
    if cfg.llmApiKey ≠ "" then "[green]configured[/green]" else "[yellow]no key[/yellow]"
  let dataStatus :=
    if cfg.dataExists then "[green]exists[/green]" else "[dim]not created[/dim]"
  let lines :=
    [ "[bold]Engine:[/bold]   " ++ engineStatus,
      "[bold]LLM API:[/bold]  " ++ apiStatus,
      "[bold]Model:[/bold]    " ++ cfg.llmModel,
      "[bold]Data:[/bold]     " ++ dataStatus ]
  return { body := PBody.text (String.intercalate "\n" lines),
           title := some "[3] Agents", border_style := some "magenta" }

/-- `collect_agents` with its outer `except Exception` handler. -/
def collect_agents (env : Env) : PPanel :=
  match collect_agents_inner env with
  | .ok p => p
  | .error _ =>
    { body := PBody.text "[dim]Unable to check agents[/dim]",
      title := some "[3] Agents", border_style := some "red" }

/-- One row of `collect_system`'s tool table, from the outcome of the
version-check subprocess.  The per-row `except` catches only
`FileNotFoundError` and `TimeoutExpired`. -/
def systemRow (name : String) (r : ProcResult) : Except PyExc (String × String × String) :=
  match r with
  | .exn e => Except.error e
  | .notFound => Except.ok (name, "[dim]n/a[/dim]", "")
  | .timeout => Except.ok (name, "[dim]n/a[/dim]", "")
  | .ok rc out =>
    Except.ok (if rc = 0 then
        (name, "[green]OK[/green]", (((out.trim).splitOn "\n").headD "").take 25)
      else
        (name, "[yellow]err[/yellow]", ""))

/-- Body of `collect_system` inside its outer `try`. -/
def collect_system_inner (env : Env) : Except PyExc PPanel := do
  let r1 ← systemRow "Python" env.pythonVer
  let r2 ← systemRow "Git" env.gitVer
  let r3 ← systemRow "Node" env.nodeVer
  Except.ok { body := PBody.table [r1, r2, r3],
              title := some "[4] System", border_style := some "cyan" }

/-- `collect_system` with its outer `except Exception` handler. -/
def collect_system (env : Env) : PPanel :=
  match collect_system_inner env with
  | .ok p => p
  | .error _ =>
    { body := PBody.text "[dim]Unable to check system[/dim]",
      title := some "[4] System", border_style := some "red" }

/-- Tag for one of the four panel providers, the values of the `panels`
dict in `_build_layout`. -/
inductive Provider where
  | devops
  | revenue
  | agents
  | system
deriving DecidableEq, Repr

/-- Model of a `rich.layout.Layout` tree as this code builds it: named
regions with the `ratio`/`size` arguments used, leaves optionally updated
with a panel. -/
inductive LNode where
  | leaf (name : String) (ratio : Nat) (size : Option Nat) (content : Option PPanel) : LNode
  | split_col (name : String) (ratio : Nat) (size : Option Nat) (children : List LNode) : LNode
  | split_row (name : String) (ratio : Nat) (size : Option Nat) (children : List LNode) : LNode

mutual

/-- All leaf regions of a layout tree, left to right, as
(name, content) pairs. -/
def LNode.flatten : LNode → List (String × Option PPanel)
  | .leaf n _ _ c => [(n, c)]
  | .split_col _ _ _ cs => flattenList cs
  | .split_row _ _ _ cs => flattenList cs

/-- Leaf regions of a list of layout subtrees. -/
def flattenList : List LNode → List (String × Option PPanel)
  | [] => []
  | x :: xs => x.flatten ++ flattenList xs

end

/-- Number of panel regions of a layout: leaves other than the footer that
hold content. -/
def panelRegionCount (l : LNode) : Nat :=
  (l.flatten.filter (fun p => p.1 ≠ "footer" ∧ p.2.isSome)).length

/-- Whether the layout has a footer region holding content. -/
def hasFooter (l : LNode) : Prop :=
  ∃ p ∈ l.flatten, p.1 = "footer" ∧ p.2.isSome

instance (l : LNode) : Decidable (hasFooter l) := by
  unfold hasFooter
  infer_instance

/-- Titles of the panels embedded in a layout, left to right. -/
def layoutTitles (l : LNode) : List String :=
  l.flatten.filterMap (fun p => p.2.bind (fun q => q.title))

/-- The `panels` dict of `_build_layout` (`{1: collect_devops, 2:
collect_revenue, 3: collect_agents, 4: collect_system}`), as the partial map
used by the `focused in panels` membership test. -/
def panels (k : Int) : Option Provider :=
  if k = 1 then some Provider.devops
  else if k = 2 then some Provider.revenue
  else if k = 3 then some Provider.agents
  else if k = 4 then some Provider.system
  else none

/-- Run the provider a `panels` entry points to. -/
def runProvider : Provider → Env → PPanel
  | .devops => collect_devops
  | .revenue => collect_revenue
  | .agents => collect_agents
  | .system => collect_system

/-- Footer text of the focused (single-panel) view. -/
def focusedFooterText (focused : Int) : String :=
  "[bold]q[/bold] Quit  [bold]r[/bold] Refresh  " ++
  "[bold]0[/bold] Grid view  " ++
  "[bold]1-4[/bold] Focus panel  [dim]Viewing: " ++ toString focused ++ "[/dim]"

/-- Footer text of the 2x2 grid view. -/
def gridFooterText : String :=
  "[bold]q[/bold] Quit  [bold]r[/bold] Refresh  " ++
  "[bold]1-4[/bold] Focus panel  " ++
  "[dim]Auto-refresh active[/dim]"

/-- The footer `Panel(text, style="dim")`. -/
def footerPanel (t : String) : PPanel :=
  { body := PBody.text t, style := some "dim" }

/-- `_build_layout(focused)`: the layout tree plus, in evaluation order, the
providers it invokes.  If `focused in panels`, a single expanded panel over
the footer; otherwise the 2x2 grid (devops, revenue / agents, system) over
the footer. -/
def _build_layout (focused : Int) (env : Env) : LNode × List Provider :=
  match panels focused with
  | some prov =>
    (LNode.split_col "" 1 none
      [ LNode.leaf "main" 8 none (some (runProvider prov env)),
        LNode.leaf "footer" 1 (some 3) (some (footerPanel (focusedFooterText focused))) ],
     [prov])
  | none =>
    (LNode.split_col "" 1 none
      [ LNode.split_row "top" 4 none
          [ LNode.leaf "devops" 1 none (some (collect_devops env)),
            LNode.leaf "revenue" 1 none (some (collect_revenue env)) ],
        LNode.split_row "bottom" 4 none
          [ LNode.leaf "agents" 1 none (some (collect_agents env)),
            LNode.leaf "system" 1 none (some (collect_system env)) ],
        LNode.leaf "footer" 1 (some 3) (some (footerPanel gridFooterText)) ],
     [Provider.devops, Provider.revenue, Provider.agents, Provider.system])

/-- The shared `state` dict created by `dash`:
`{"running": True, "refresh": False, "focused": 0}`. -/
structure ViewState where
  running : Bool
  refresh : Bool
  focused : Int
deriving DecidableEq, Repr

/-- Initial shared state (line 122 of `dashboard.py`). -/
def initView : ViewState :=
  { running := true, refresh := false, focused := 0 }

/-- Python `int(ch)` for a single decimal digit character. -/
def digitInt (c : Char) : Int :=
  (c.toNat : Int) - 48

/-- Effect of one character read by `_key_listener` on the shared state:
the `if ch in ("q", "Q", "\x03") / elif ch == "r" / elif ch in "01234"`
dispatch. -/
def keyStep (c : Char) (s : ViewState) : ViewState :=
  if c = 'q' ∨ c = 'Q' ∨ c = Char.ofNat 3 then
    { s with running := false }
  else if c = 'r' then
    { s with refresh := true }
  else if c ∈ ['0', '1', '2', '3', '4'] then
    { s with focused := digitInt c, refresh := true }
  else s

/-- The raw-mode read loop of `_key_listener` over a finite sequence of
delivered characters: `while state["running"]: ch = stdin.read(1); ...`. -/
def keyLoop : List Char → ViewState → ViewState
  | [], s => s
  | c :: cs, s => if s.running then keyLoop cs (keyStep c s) else s

/-- Environment of one `_key_listener` run: the outcome of each terminal
interaction it attempts.  `readLoopExc` is the exception, if any, raised
inside the raw-mode read loop (`none` means the loop ends normally with
`running` cleared). -/
structure TtyEnv where
  importTty : Option PyExc
  filenoR : Except PyExc Nat
  tcgetattrR : Except PyExc Nat
  setraw : Option PyExc
  readLoopExc : Option PyExc
  tcsetattrExc : Option PyExc
deriving Repr

/-- Observable events of a `_key_listener` run. -/
inductive LEvent where
  | enteredRaw
  | restoreCall (attrs : Nat)
  | fallbackIdle
deriving DecidableEq, Repr

/-- How a `_key_listener` run ends: a normal return or an uncaught
exception propagating out of the thread. -/
inductive LOutcome where
  | returned
  | raised (e : PyExc)
deriving DecidableEq, Repr

/-- Whether `except (ImportError, OSError)` catches a given exception.
`termios.error` derives directly from `Exception`, not from `OSError`,
so it is not caught. -/
def caughtByHandler : PyExc → Bool
  | .importError => true
  | .osError _ => true
  | _ => false

/-- `_key_listener`: the outer `try ... except (ImportError, OSError)`
around the raw-mode section with its inner `try ... finally:
termios.tcsetattr(fd, TCSADRAIN, old_settings)`, falling back to the
0.5-second idle poll when the handler catches. -/
def keyListener (env : TtyEnv) : List LEvent × LOutcome :=
  let body : List LEvent × Option PyExc :=
    match env.importTty with
    | some e => ([], some e)
    | none =>
      match env.filenoR with
      | .error e => ([], some e)
      | .ok _fd =>
        match env.tcgetattrR with
        | .error e => ([], some e)
        | .ok old =>
          let inner : List LEvent × Option PyExc :=
            match env.setraw with
            | some e => ([], some e)
            | none => ([LEvent.enteredRaw], env.readLoopExc)
          let evs := inner.1 ++ [LEvent.restoreCall old]
          match env.tcsetattrExc with
          | some e2 => (evs, some e2)
          | none => (evs, inner.2)
  match body with
  | (evs, none) => (evs, LOutcome.returned)
  | (evs, some e) =>
    if caughtByHandler e then (evs ++ [LEvent.fallbackIdle], LOutcome.returned)
    else (evs, LOutcome.raised e)

/-- Exit time (in hundredths of a second) of the render loop's waiting
phase `for _ in range(refresh * 10): if not running or refresh: break;
time.sleep(0.1)`, given the remaining iteration count, the current time `t`
(a multiple of 10, one sleep increment being 10 hundredths), and the time
`tau` from which the break condition (`running` cleared or a refresh
request, both monotone within one waiting phase) is observable. -/
def waitPollAux : Nat → Nat → Nat → Nat
  | 0, t, _ => t
  | k + 1, t, tau => if tau ≤ t then t else waitPollAux k (t + 10) tau

/-- Exit time of one full waiting phase with `--refresh r`, starting at
time 0, when the break condition becomes observable at time `tau`
(hundredths of a second). -/
def renderWaitExit (r tau : Nat) : Nat :=
  waitPollAux (r * 10) 0 tau

/-- Effects the `dash` command performs, in order. -/
inductive Effect where
  | printLayout (l : LNode)
  | startListener
  | printMsg (s : String)

/-- The `dash` command: the non-interactive branch prints one grid render
and returns; the interactive branch starts the listener, runs the live
session (abstracted as `session`), and prints the closing notice from its
`finally`.  The second component is the process exit code (typer maps a
plain return to 0). -/
def dash (no_interactive : Bool) (env : Env) (session : List Effect) :
    List Effect × Nat :=
  if no_interactive then
    ([Effect.printLayout (_build_layout 0 env).1], 0)
  else
    ([Effect.startListener] ++ session ++
      [Effect.printMsg "[dim]Dashboard closed.[/dim]"], 0)

/-!
Interleaving model of the listener/render-loop concurrency for one digit
keypress.  Under CPython's GIL each single `state[...]` assignment and read
is atomic, but the digit branch performs two separate assignments
(`state["focused"] = int(ch)` then `state["refresh"] = True`), so the model
makes each of those an individual atomic step and lets an arbitrary
scheduler interleave them with the render loop of `dash` (lines 130-139).
-/

/-- Program counter of the listener thread while it processes one digit
keypress: about to write `focused`, about to write `refresh`, or done. -/
inductive LPc where
  | writeF
  | writeR
  | ldone
deriving DecidableEq, Repr

/-- Program counter of the render loop: the `while state["running"]` test,
the render+refresh of lines 131-132, the waiting phase with its remaining
iteration count, the `state["refresh"] = False` of line 139, or exited. -/
inductive RPc where
  | check
  | render
  | wait (k : Nat)
  | clear
  | halted
deriving DecidableEq, Repr

/-- The shared dict as seen by both threads. -/
structure Shared where
  focused : Int
  refresh : Bool
  running : Bool
deriving DecidableEq, Repr

/-- Whole-system state: shared dict, both program counters, whether the
current/next render was triggered by an observed refresh request, and the
frames pushed to the live display so far (rendered `focused` value paired
with that trigger flag). -/
structure Sys where
  sh : Shared
  lpc : LPc
  rpc : RPc
  trig : Bool
  frames : List (Int × Bool)
deriving DecidableEq, Repr

/-- One atomic step of the listener thread processing digit `d`. -/
def stepListener (d : Int) (s : Sys) : Sys :=
  match s.lpc with
  | .writeF => { s with sh := { s.sh with focused := d }, lpc := LPc.writeR }
  | .writeR => { s with sh := { s.sh with refresh := true }, lpc := LPc.ldone }
  | .ldone => s

/-- One atomic step of the render loop; `n = refresh * 10` is the iteration
bound of the waiting phase. -/
def stepRender (n : Nat) (s : Sys) : Sys :=
  match s.rpc with
  | .check =>
    if s.sh.running then { s with rpc := RPc.render } else { s with rpc := RPc.halted }
  | .render =>
    { s with frames := s.frames ++ [(s.sh.focused, s.trig)],
             trig := false, rpc := RPc.wait n }
  | .wait k =>
    match k with
    | 0 => { s with rpc := RPc.clear, trig := false }
    | k2 + 1 =>
      if s.sh.running = false ∨ s.sh.refresh = true then
        { s with rpc := RPc.clear, trig := s.sh.refresh }
      else
        { s with rpc := RPc.wait k2 }
  | .clear => { s with sh := { s.sh with refresh := false }, rpc := RPc.check }
  | .halted => s

/-- One scheduler step: `true` runs the listener, `false` the render loop. -/
def step (d : Int) (n : Nat) (c : Bool) (s : Sys) : Sys :=
  if c then stepListener d s else stepRender n s

/-- Run the two threads under an arbitrary finite schedule. -/
def sysRun (d : Int) (n : Nat) (sched : List Bool) (s : Sys) : Sys :=
  sched.foldl (fun s c => step d n c s) s

/-- System state at the instant the digit key is pressed: the listener is
about to perform its two writes, no refresh request is pending, the
session is running, and the render loop may be anywhere; the model starts
it at the loop test. -/
def initSys (f0 : Int) : Sys :=
  { sh := { focused := f0, refresh := false, running := true },
    lpc := LPc.writeF, rpc := RPc.check, trig := false, frames := [] }

/-- Invariant tying the two halves of the digit update together: once the
`focused` write is past, `focused` holds the digit; a pending refresh
request implies both writes are complete; a refresh-triggered render in
flight or already recorded shows the digit. -/
def DashInv (d : Int) (s : Sys) : Prop :=
  (s.lpc ≠ LPc.writeF → s.sh.focused = d)
  ∧ (s.sh.refresh = true → s.lpc = LPc.ldone)
  ∧ (s.trig = true → s.sh.focused = d)
  ∧ (∀ p ∈ s.frames, p.2 = true → p.1 = d)

/-! Concrete environments used to instantiate the universally quantified
theorems. -/

/-- An environment where every collector succeeds on its happy path (or a
benignly missing external tool) and the revenue ledger file is absent. -/
def envOk : Env :=
  { gitBranch := ProcResult.ok 0 "main\n",
    gitStatus := ProcResult.ok 0 "",
    vercelVersion := ProcResult.notFound,
    dockerInfo := ProcResult.notFound,
    config := Except.ok
      { mekongExists := true, llmApiKey := "", llmModel := "gpt-4", dataExists := true },
    ledgerExists := false,
    ledgerRead := Except.ok [],
    nowMonth := "2026-10",
    pythonVer := ProcResult.ok 0 "Python 3.11.6",
    gitVer := ProcResult.notFound,
    nodeVer := ProcResult.notFound }

/-- An environment where every collector's guarded body fails with an
exception the inner row handlers do not catch. -/
def envFail : Env :=
  { gitBranch := ProcResult.exn (PyExc.osError "PermissionError"),
    gitStatus := ProcResult.notFound,
    vercelVersion := ProcResult.notFound,
    dockerInfo := ProcResult.notFound,
    config := Except.error (PyExc.excOther "ValidationError"),
    ledgerExists := true,
    ledgerRead := Except.error PyExc.jsonError,
    nowMonth := "2026-10",
    pythonVer := ProcResult.exn (PyExc.osError "PermissionError"),
    gitVer := ProcResult.notFound,
    nodeVer := ProcResult.notFound }

/-- Terminal environment of a healthy interactive session: stdin is a real
terminal, raw mode is entered, the read loop runs to completion. -/
def ttyOkEnv : TtyEnv :=
  { importTty := none, filenoR := Except.ok 0, tcgetattrR := Except.ok 7,
    setraw := none, readLoopExc := none, tcsetattrExc := none }

/-- Terminal environment of a session whose stdin is a pipe: `fileno`
succeeds (a pipe has a file descriptor) but `termios.tcgetattr` raises
`termios.error`. -/
def pipeEnv : TtyEnv :=
  { importTty := none, filenoR := Except.ok 0,
    tcgetattrR := Except.error PyExc.termiosError,
    setraw := none, readLoopExc := none, tcsetattrExc := none }

/-! Helper lemmas. -/

theorem collect_devops_title (env : Env) :
    (collect_devops env).title = some "[1] DevOps" := by
  obtain ⟨gb, gs, vv, di, cfg, le, lr, nm, pv, gv, nv⟩ := env
  cases gb <;> cases gs <;> cases vv <;> cases di <;> rfl

theorem collect_revenue_title (env : Env) :
    (collect_revenue env).title = some "[2] Revenue" := by
  obtain ⟨gb, gs, vv, di, cfg, le, lr, nm, pv, gv, nv⟩ := env
  cases cfg <;> cases le <;> cases lr <;> rfl

theorem collect_agents_title (env : Env) :
    (collect_agents env).title = some "[3] Agents" := by
  obtain ⟨gb, gs, vv, di, cfg, le, lr, nm, pv, gv, nv⟩ := env
  cases cfg <;> rfl

theorem collect_system_title (env : Env) :
    (collect_system env).title = some "[4] System" := by
  obtain ⟨gb, gs, vv, di, cfg, le, lr, nm, pv, gv, nv⟩ := env
  cases pv <;> cases gv <;> cases nv <;> rfl

theorem keyLoop_stopped (l : List Char) (s : ViewState) (h : s.running = false) :
    keyLoop l s = s := by
  cases l <;> simp [keyLoop, h]

theorem waitPollAux_le (k : Nat) : ∀ t tau, waitPollAux k t tau ≤ t + 10 * k := by
  induction k with
  | zero => intro t tau; simp [waitPollAux]
  | succ k ih =>
    intro t tau
    simp only [waitPollAux]
    split
    · omega
    · have := ih (t + 10) tau; omega

theorem waitPollAux_le_flag (k : Nat) :
    ∀ t tau, t ≤ tau + 10 → waitPollAux k t tau ≤ tau + 10 := by
  induction k with
  | zero => intro t tau h; simpa [waitPollAux] using h
  | succ k ih =>
    intro t tau h
    simp only [waitPollAux]
    split
    next => exact h
    next h2 => exact ih (t + 10) tau (by omega)

theorem waitPollAux_mod (k : Nat) :
    ∀ t tau, t % 10 = 0 → waitPollAux k t tau % 10 = 0 := by
  induction k with
  | zero => intro t tau h; simpa [waitPollAux] using h
  | succ k ih =>
    intro t tau h
    simp only [waitPollAux]
    split
    next => exact h
    next => exact ih (t + 10) tau (by omega)

theorem stepListener_inv (d : Int) (s : Sys) (h : DashInv d s) :
    DashInv d (stepListener d s) := by
  obtain ⟨⟨f, r, run⟩, lpc, rpc, trig, frames⟩ := s
  obtain ⟨h1, h2, h3, h4⟩ := h
  cases lpc with
  | writeF =>
    simp only [stepListener]
    exact ⟨fun _ => rfl, fun hr => LPc.noConfusion (h2 hr), fun _ => rfl, h4⟩
  | writeR =>
    have hf : f = d := h1 (by simp)
    simp only [stepListener]
    exact ⟨fun _ => hf, fun _ => rfl, fun _ => hf, h4⟩
  | ldone => exact ⟨h1, h2, h3, h4⟩

theorem stepRender_inv (d : Int) (n : Nat) (s : Sys) (h : DashInv d s) :
    DashInv d (stepRender n s) := by
  obtain ⟨⟨f, r, run⟩, lpc, rpc, trig, frames⟩ := s
  obtain ⟨h1, h2, h3, h4⟩ := h
  cases rpc with
  | check =>
    simp only [stepRender]
    split <;> exact ⟨h1, h2, h3, h4⟩
  | render =>
    simp only [stepRender]
    refine ⟨h1, h2, fun ht => (Bool.false_ne_true ht).elim, fun p hp => ?_⟩
    rcases List.mem_append.mp hp with hin | hin
    · exact h4 p hin
    · have hp2 : p = (f, trig) := by simpa using hin
      subst hp2
      exact fun hpt => h3 hpt
  | wait k =>
    cases k with
    | zero =>
      simp only [stepRender]
      exact ⟨h1, h2, fun ht => (Bool.false_ne_true ht).elim, h4⟩
    | succ k2 =>
      simp only [stepRender]
      split
      · refine ⟨h1, h2, fun ht => ?_, h4⟩
        exact h1 (by rw [h2 ht]; simp)
      · exact ⟨h1, h2, h3, h4⟩
  | clear =>
    simp only [stepRender]
    exact ⟨h1, fun hr2 => (Bool.false_ne_true hr2).elim, h3, h4⟩
  | halted => exact ⟨h1, h2, h3, h4⟩

theorem step_inv (d : Int) (n : Nat) (c : Bool) (s : Sys) (h : DashInv d s) :
    DashInv d (step d n c s) := by
  unfold step
  split
  · exact stepListener_inv d s h
  · exact stepRender_inv d n s h

theorem sysRun_inv (d : Int) (n : Nat) (sched : List Bool) :
    ∀ s, DashInv d s → DashInv d (sysRun d n sched s) := by
  induction sched with
  | nil => intro s h; simpa [sysRun] using h
  | cons c cs ih =>
    intro s h
    have : sysRun d n (c :: cs) s = sysRun d n cs (step d n c s) := by
      simp [sysRun]
    rw [this]
    exact ih _ (step_inv d n c s h)

theorem initSys_inv (d f0 : Int) : DashInv d (initSys f0) := by
  refine ⟨fun h => absurd rfl h, by simp [initSys], by simp [initSys], ?_⟩
  intro p hp
  simp [initSys] at hp

theorem keyLoop_cons_run (c : Char) (cs : List Char) (s : ViewState)
    (h : s.running = true) : keyLoop (c :: cs) s = keyLoop cs (keyStep c s) := by
  simp [keyLoop, h]

/-! Claim theorems. -/

/-- Claim C1: with the session running, each character read by the raw-mode
loop of the Input Listener drives the shared state per the key table —
q, Q or the interrupt byte 0x03 clear `running` and end the loop; r sets
the refresh flag; a digit 0-4 sets the focus to its integer value together
with the refresh flag and the loop continues; any other character leaves
the state unchanged and the loop continues; and the sequence 1, r, q ends
with running false and focus 1, the refresh flag having been observed true
already after the first keystroke. -/
theorem claim_C1_key_table (s : ViewState) (c : Char) (rest : List Char)
    (hrun : s.running = true) :
    ((c = 'q' ∨ c = 'Q' ∨ c = Char.ofNat 3) →
        keyStep c s = { s with running := false }
        ∧ keyLoop (c :: rest) s = { s with running := false })
    ∧ (c = 'r' → keyStep c s = { s with refresh := true })
    ∧ (c ∈ ['0', '1', '2', '3', '4'] →
        keyStep c s = { s with focused := digitInt c, refresh := true }
        ∧ keyLoop (c :: rest) s
            = keyLoop rest { s with focused := digitInt c, refresh := true })
    ∧ (¬(c = 'q' ∨ c = 'Q' ∨ c = Char.ofNat 3) → c ≠ 'r' →
        c ∉ ['0', '1', '2', '3', '4'] →
        keyStep c s = s ∧ keyLoop (c :: rest) s = keyLoop rest s)
    ∧ keyLoop ['1', 'r', 'q'] initView
        = { running := false, refresh := true, focused := 1 }
    ∧ (keyStep '1' initView).refresh = true := by
  refine ⟨?_, ?_, ?_, ?_, by decide, by decide⟩
  · intro h
    have hs : keyStep c s = { s with running := false } := by
      unfold keyStep
      rw [if_pos h]
    refine ⟨hs, ?_⟩
    rw [keyLoop_cons_run c rest s hrun, hs, keyLoop_stopped rest _ rfl]
  · intro h
    subst h
    rfl
  · intro h
    fin_cases h <;>
      exact ⟨rfl, by rw [keyLoop_cons_run _ rest s hrun]; exact rfl⟩
  · intro h1 h2 h3
    have hs : keyStep c s = s := by
      unfold keyStep
      rw [if_neg h1, if_neg h2, if_neg h3]
    exact ⟨hs, by rw [keyLoop_cons_run c rest s hrun, hs]⟩

/-- Witness for C1 at the concrete trace 1, r, q. -/
theorem claim_C1_witness :
    keyLoop ['1', 'r', 'q'] initView
      = { running := false, refresh := true, focused := 1 } :=
  (claim_C1_key_table initView 'x' [] rfl).2.2.2.2.1

/-- Claim C2: for any focus selector, `_build_layout` terminates (it is a
total function) and yields a layout with a footer region; with focus 0 it
has exactly 4 panel regions, with focus 1-4 exactly 1; and for any selector
outside 0-4 (such as 5 or -1) it returns the very same grid layout as
focus 0 without raising. -/
theorem claim_C2_build_layout (f : Int) (env : Env) :
    hasFooter (_build_layout f env).1
    ∧ (f = 0 → panelRegionCount (_build_layout f env).1 = 4)
    ∧ ((f = 1 ∨ f = 2 ∨ f = 3 ∨ f = 4) → panelRegionCount (_build_layout f env).1 = 1)
    ∧ (¬(f = 0 ∨ f = 1 ∨ f = 2 ∨ f = 3 ∨ f = 4) →
        (_build_layout f env).1 = (_build_layout 0 env).1) := by
  refine ⟨?_, ?_, ?_, ?_⟩
  · rcases hp : panels f with _ | prov <;>
      simp [_build_layout, hp, hasFooter, LNode.flatten, flattenList]
  · intro h
    subst h
    rfl
  · intro h
    rcases h with h | h | h | h <;> subst h <;> rfl
  · intro h
    push_neg at h
    obtain ⟨h0, h1, h2, h3, h4⟩ := h
    have hp : panels f = none := by
      unfold panels
      rw [if_neg h1, if_neg h2, if_neg h3, if_neg h4]
    have hp0 : panels 0 = none := rfl
    simp [_build_layout, hp, hp0]

/-- Witness for C2 at focus 0, 3, 5 and -1. -/
theorem claim_C2_witness :
    panelRegionCount (_build_layout 0 envOk).1 = 4
    ∧ panelRegionCount (_build_layout 3 envOk).1 = 1
    ∧ (_build_layout 5 envOk).1 = (_build_layout 0 envOk).1
    ∧ (_build_layout (-1) envOk).1 = (_build_layout 0 envOk).1 :=
  ⟨(claim_C2_build_layout 0 envOk).2.1 rfl,
   (claim_C2_build_layout 3 envOk).2.2.1 (Or.inr (Or.inr (Or.inl rfl))),
   (claim_C2_build_layout 5 envOk).2.2.2 (by decide),
   (claim_C2_build_layout (-1) envOk).2.2.2 (by decide)⟩

/-- Claim C8: for focus 0 or any selector outside 1-4, `_build_layout`
invokes all four providers exactly once each, in the order
devops (ops), revenue (financial), agents, system; arranges them 2x2 with
devops top-left, revenue top-right, agents bottom-left, system
bottom-right above the footer; and the footer text lists the full key
legend (quit, refresh, focus-select). -/
theorem claim_C8_grid (f : Int) (env : Env)
    (h : f = 0 ∨ ¬(f = 1 ∨ f = 2 ∨ f = 3 ∨ f = 4)) :
    (_build_layout f env).2
      = [Provider.devops, Provider.revenue, Provider.agents, Provider.system]
    ∧ (_build_layout f env).1 =
        LNode.split_col "" 1 none
          [ LNode.split_row "top" 4 none
              [ LNode.leaf "devops" 1 none (some (collect_devops env)),
                LNode.leaf "revenue" 1 none (some (collect_revenue env)) ],
            LNode.split_row "bottom" 4 none
              [ LNode.leaf "agents" 1 none (some (collect_agents env)),
                LNode.leaf "system" 1 none (some (collect_system env)) ],
            LNode.leaf "footer" 1 (some 3) (some (footerPanel gridFooterText)) ]
    ∧ List.IsInfix "Quit".data gridFooterText.data
    ∧ List.IsInfix "Refresh".data gridFooterText.data
    ∧ List.IsInfix "Focus panel".data gridFooterText.data := by
  have hp : panels f = none := by
    rcases h with h | h
    · subst h
      rfl
    · push_neg at h
      obtain ⟨h1, h2, h3, h4⟩ := h
      unfold panels
      rw [if_neg h1, if_neg h2, if_neg h3, if_neg h4]
  refine ⟨?_, ?_, by decide, by decide, by decide⟩
  · simp [_build_layout, hp]
  · simp [_build_layout, hp]

/-- Witness for C8 at focus 0. -/
theorem claim_C8_witness :
    (_build_layout 0 envOk).2
      = [Provider.devops, Provider.revenue, Provider.agents, Provider.system] :=
  (claim_C8_grid 0 envOk (Or.inl rfl)).1

/-- Counterexample to C4 as stated: in an environment where the DevOps
collector's guarded body fails, the returned degraded panel does not
preserve the panel's border styling — the normal border is blue, the
degraded one is red. -/
theorem claim_C4_counterexample :
    (collect_devops envFail).body
      = PBody.text "[dim]Unable to collect DevOps data[/dim]"
    ∧ (collect_devops envOk).border_style = some "blue"
    ∧ (collect_devops envFail).border_style ≠ (collect_devops envOk).border_style := by
  exact ⟨rfl, rfl, by decide⟩

/-- Claim C4 (amended): every collector returns normally for every
environment, always carries its panel title, and on any failure escaping
its guarded body returns the degraded panel with a short dim explanation
and the same title — but with the red error border style in place of the
panel's normal border. -/
theorem claim_C4_amended (env : Env) :
    ((collect_devops env).title = some "[1] DevOps"
      ∧ (collect_revenue env).title = some "[2] Revenue"
      ∧ (collect_agents env).title = some "[3] Agents"
      ∧ (collect_system env).title = some "[4] System")
    ∧ (∀ e, collect_devops_inner env = Except.error e →
        collect_devops env =
          { body := PBody.text "[dim]Unable to collect DevOps data[/dim]",
            title := some "[1] DevOps", border_style := some "red" })
    ∧ (∀ e, collect_revenue_inner env = Except.error e →
        collect_revenue env =
          { body := PBody.text "[dim]Unable to load revenue data[/dim]",
            title := some "[2] Revenue", border_style := some "red" })
    ∧ (∀ e, collect_agents_inner env = Except.error e →
        collect_agents env =
          { body := PBody.text "[dim]Unable to check agents[/dim]",
            title := some "[3] Agents", border_style := some "red" })
    ∧ (∀ e, collect_system_inner env = Except.error e →
        collect_system env =
          { body := PBody.text "[dim]Unable to check system[/dim]",
            title := some "[4] System", border_style := some "red" }) := by
  refine ⟨⟨collect_devops_title env, collect_revenue_title env,
           collect_agents_title env, collect_system_title env⟩, ?_, ?_, ?_, ?_⟩
  · intro e he
    simp [collect_devops, he]
  · intro e he
    simp [collect_revenue, he]
  · intro e he
    simp [collect_agents, he]
  · intro e he
    simp [collect_system, he]

/-- Witness for C4 (amended) in an environment where all four collectors
fail. -/
theorem claim_C4_witness :
    collect_devops envFail =
      { body := PBody.text "[dim]Unable to collect DevOps data[/dim]",
        title := some "[1] DevOps", border_style := some "red" }
    ∧ collect_revenue envFail =
      { body := PBody.text "[dim]Unable to load revenue data[/dim]",
        title := some "[2] Revenue", border_style := some "red" }
    ∧ collect_agents envFail =
      { body := PBody.text "[dim]Unable to check agents[/dim]",
        title := some "[3] Agents", border_style := some "red" }
    ∧ collect_system envFail =
      { body := PBody.text "[dim]Unable to check system[/dim]",
        title := some "[4] System", border_style := some "red" } :=
  ⟨(claim_C4_amended envFail).2.1 (PyExc.osError "PermissionError") rfl,
   (claim_C4_amended envFail).2.2.1 (PyExc.excOther "ValidationError") rfl,
   (claim_C4_amended envFail).2.2.2.1 (PyExc.excOther "ValidationError") rfl,
   (claim_C4_amended envFail).2.2.2.2 (PyExc.osError "PermissionError") rfl⟩

/-- Claim C10: when the configuration loads and the ledger file is absent,
`collect_revenue` treats this as an ordinary empty state: it returns the
normal green-bordered revenue panel with the no-transactions hint and a
usage suggestion, not the degraded error panel. -/
theorem claim_C10_missing_ledger (env : Env) (cfg : ConfigView)
    (hc : env.config = Except.ok cfg) (hl : env.ledgerExists = false) :
    collect_revenue env =
      { body := PBody.text
          ("[dim]No transactions yet[/dim]\n" ++
           "[dim]Use: mekon revenue add 100 --source client[/dim]"),
        title := some "[2] Revenue", border_style := some "green" } := by
  simp [collect_revenue, collect_revenue_inner, hc, hl, Except.bind, bind, pure,
    Except.pure]

/-- Witness for C10 in a concrete environment with no ledger file. -/
theorem claim_C10_witness :
    collect_revenue envOk =
      { body := PBody.text
          ("[dim]No transactions yet[/dim]\n" ++
           "[dim]Use: mekon revenue add 100 --source client[/dim]"),
        title := some "[2] Revenue", border_style := some "green" } :=
  claim_C10_missing_ledger envOk
    { mekongExists := true, llmApiKey := "", llmModel := "gpt-4", dataExists := true }
    rfl rfl

/-- Claim C5: under every interleaving of the listener's two-step digit
update with the render loop, the focused/refresh pair is observed as a
unit — every refresh-triggered frame shows the digit just written, a
pending refresh request is never visible with a stale focus, and once the
listener's update is complete any subsequent render reads the new focus,
so no frame is missed or duplicated with stale data. -/
theorem claim_C5_no_torn_pair (f0 d : Int) (n : Nat) (sched : List Bool) :
    (∀ p ∈ (sysRun d n sched (initSys f0)).frames, p.2 = true → p.1 = d)
    ∧ ((sysRun d n sched (initSys f0)).sh.refresh = true →
        (sysRun d n sched (initSys f0)).sh.focused = d)
    ∧ ((sysRun d n sched (initSys f0)).lpc = LPc.ldone →
        (sysRun d n sched (initSys f0)).sh.focused = d) := by
  obtain ⟨h1, h2, h3, h4⟩ := sysRun_inv d n sched (initSys f0) (initSys_inv d f0)
  exact ⟨h4, fun hr => h1 (by rw [h2 hr]; simp), fun hl => h1 (by rw [hl]; simp)⟩

/-- Witness for C5: a schedule where the render loop breaks its wait on the
refresh request and renders the digit, and one where the pending refresh is
observed with the digit already visible. -/
theorem claim_C5_witness :
    ((3 : Int), true).1 = 3
    ∧ (sysRun 3 2 [true, true] (initSys 0)).sh.focused = 3
    ∧ (sysRun 3 2 [true, true] (initSys 0)).sh.focused = 3 :=
  ⟨(claim_C5_no_torn_pair 0 3 2
      [true, true, false, false, false, false, false, false]).1 (3, true)
      (by decide) rfl,
   (claim_C5_no_torn_pair 0 3 2 [true, true]).2.1 (by decide),
   (claim_C5_no_torn_pair 0 3 2 [true, true]).2.2 (by decide)⟩

/-- Claim C6: invoked with `--no-interactive`, `dash` renders exactly once
with focus 0, never emits the listener-start effect (so no terminal-mode
mutation), produces a layout carrying all four panel titles, and exits
with code 0. -/
theorem claim_C6_no_interactive (env : Env) (session : List Effect) :
    dash true env session = ([Effect.printLayout (_build_layout 0 env).1], 0)
    ∧ (dash true env session).2 = 0
    ∧ Effect.startListener ∉ (dash true env session).1
    ∧ "[1] DevOps" ∈ layoutTitles (_build_layout 0 env).1
    ∧ "[2] Revenue" ∈ layoutTitles (_build_layout 0 env).1
    ∧ "[3] Agents" ∈ layoutTitles (_build_layout 0 env).1
    ∧ "[4] System" ∈ layoutTitles (_build_layout 0 env).1 := by
  have ht : layoutTitles (_build_layout 0 env).1
      = ["[1] DevOps", "[2] Revenue", "[3] Agents", "[4] System"] := by
    simp [layoutTitles, _build_layout, panels, LNode.flatten, flattenList,
      footerPanel, collect_devops_title, collect_revenue_title,
      collect_agents_title, collect_system_title]
  refine ⟨rfl, rfl, ?_, ?_, ?_, ?_, ?_⟩ <;> simp [dash, ht]

/-- Witness for C6 at a concrete environment and session. -/
theorem claim_C6_witness :
    dash true envOk [] = ([Effect.printLayout (_build_layout 0 envOk).1], 0)
    ∧ (dash true envOk []).2 = 0
    ∧ Effect.startListener ∉ (dash true envOk []).1
    ∧ "[1] DevOps" ∈ layoutTitles (_build_layout 0 envOk).1
    ∧ "[2] Revenue" ∈ layoutTitles (_build_layout 0 envOk).1
    ∧ "[3] Agents" ∈ layoutTitles (_build_layout 0 envOk).1
    ∧ "[4] System" ∈ layoutTitles (_build_layout 0 envOk).1 :=
  claim_C6_no_interactive envOk []

/-- Claim C7: one waiting phase of the render loop polls the flags before
each 0.1-unit sleep increment, runs for at most the configured refresh
interval (`refresh * 10` increments, 100·r hundredths), exits within one
increment (10 hundredths) of the moment the break condition becomes
observable, and always exits on an increment boundary. -/
theorem claim_C7_wait_bounds (r tau : Nat) :
    renderWaitExit r tau ≤ 100 * r
    ∧ renderWaitExit r tau ≤ tau + 10
    ∧ renderWaitExit r tau % 10 = 0 := by
  refine ⟨?_, ?_, ?_⟩
  · have h := waitPollAux_le (r * 10) 0 tau
    unfold renderWaitExit
    omega
  · exact waitPollAux_le_flag (r * 10) 0 tau (by omega)
  · exact waitPollAux_mod (r * 10) 0 tau rfl

/-- Claim C9: whenever the Input Listener enters raw mode (import, fileno,
tcgetattr and setraw all succeed), every exit path — the read loop ending
normally or raising — executes the `finally` restore call with the saved
attributes immediately after the raw-mode section, before the listener
returns or propagates. -/
theorem claim_C9_restore (env : TtyEnv) (old : Nat) (fd : Nat)
    (h1 : env.importTty = none) (h2 : env.filenoR = Except.ok fd)
    (h3 : env.tcgetattrR = Except.ok old) (h4 : env.setraw = none) :
    ∃ rest, (keyListener env).1
      = [LEvent.enteredRaw, LEvent.restoreCall old] ++ rest := by
  obtain ⟨it, fr, tg, sr, rl, tse⟩ := env
  simp only at h1 h2 h3 h4
  subst h1 h2 h3 h4
  cases tse with
  | none =>
    cases rl with
    | none => exact ⟨[], rfl⟩
    | some e =>
      by_cases hc : caughtByHandler e = true
      · exact ⟨[LEvent.fallbackIdle], by simp [keyListener, hc]⟩
      · exact ⟨[], by simp [keyListener, hc]⟩
  | some e2 =>
    by_cases hc : caughtByHandler e2 = true
    · exact ⟨[LEvent.fallbackIdle], by simp [keyListener, hc]⟩
    · exact ⟨[], by simp [keyListener, hc]⟩

/-- Witness for C9 on a healthy terminal environment. -/
theorem claim_C9_witness :
    ∃ rest, (keyListener ttyOkEnv).1
      = [LEvent.enteredRaw, LEvent.restoreCall 7] ++ rest :=
  claim_C9_restore ttyOkEnv 7 0 rfl rfl rfl rfl

/-- Claim C3 fails on the code: with stdin a pipe, `termios.tcgetattr`
raises `termios.error`, which is not a subclass of `OSError`, so it escapes
the `except (ImportError, OSError)` handler and the listener raises instead
of idling — while the genuine ImportError path (no tty module) does reach
the 0.5-second idle fallback as the claim describes. -/
theorem claim_C3_pipe_raises :
    keyListener pipeEnv = ([], LOutcome.raised PyExc.termiosError)
    ∧ caughtByHandler PyExc.termiosError = false
    ∧ keyListener { pipeEnv with importTty := some PyExc.importError }
        = ([LEvent.fallbackIdle], LOutcome.returned) :=
  ⟨rfl, rfl, rfl⟩

end Mekon
